import Mathlib

/-
Verification of the Real-Estate-Investment frontend against its design
specification.  The definitions below are shallow embeddings of the
TypeScript sources: the saved-search form (SavedSearchForm.tsx), the API
client modules (savedSearches / properties), the update-price dialog, the
property-list page with its useProperties hook, and the zustand auth store.
The backend pipeline components that are not part of the provided sources
(PriceTracker, the PendingQueue state machine) are modelled from the spec
and marked as such.
-/

namespace RealEstate

/-- A value under a key of a JSON payload: the key can be absent from the
object, present with the explicit value null, or present with a value.
This mirrors TypeScript optional fields typed `T | null`, e.g. the numeric
bounds of SavedSearchUpdate (`min_price?: number | null`). -/
inductive JsonField (α : Type) where
  | absent : JsonField α
  | null : JsonField α
  | val : α → JsonField α
  deriving DecidableEq, Repr

/-- True exactly when the field is present with the explicit value null. -/
def JsonField.isNull {α : Type} : JsonField α → Bool
  | .null => true
  | _ => false

/-- Parsed values of the saved-search form (`FormValues` in
SavedSearchForm.tsx).  A numeric text input is either blank (`none`,
covering both the empty string and undefined, which the submit handler
treats identically) or a number; prices and areas are arbitrary numbers,
bedroom and bathroom counts are integers. -/
structure FormValues where
  name : String
  description : String
  portals : List String
  operation_type : String
  property_type : String
  city : String
  province : String
  neighborhoods_text : String
  currency : String
  min_price : Option ℚ
  max_price : Option ℚ
  min_area : Option ℚ
  max_area : Option ℚ
  min_bedrooms : Option ℤ
  max_bedrooms : Option ℤ
  min_bathrooms : Option ℤ
  auto_scrape : Bool
  is_active : Bool
  deriving DecidableEq, Repr

/-- Validation of one price or area bound, from the zod schema
`z.coerce.number().positive().optional().or(z.literal(""))`: a blank
field passes, a number passes exactly when it is strictly positive. -/
def posBound : Option ℚ → Bool
  | none => true
  | some q => decide (0 < q)

/-- Validation of one bedroom or bathroom bound, from
`z.coerce.number().int().min(0).optional().or(z.literal(""))`: a blank
field passes, an integer passes exactly when it is nonnegative. -/
def nonnegBound : Option ℤ → Bool
  | none => true
  | some n => decide (0 ≤ n)

/-- The zod `schema` of SavedSearchForm.tsx (lines 56-75): name between 1
and 255 characters, at least one portal, a nonempty operation type, and
each numeric bound validated individually by `posBound` or `nonnegBound`.
The schema contains no cross-field comparison between a min bound and the
corresponding max bound. -/
def schemaValidates (v : FormValues) : Bool :=
  decide (1 ≤ v.name.length) && decide (v.name.length ≤ 255) &&
  decide (1 ≤ v.portals.length) &&
  decide (1 ≤ v.operation_type.length) &&
  posBound v.min_price && posBound v.max_price &&
  posBound v.min_area && posBound v.max_area &&
  nonnegBound v.min_bedrooms && nonnegBound v.max_bedrooms &&
  nonnegBound v.min_bathrooms

/-- The request payload built by `handleFormSubmit` (SavedSearchForm.tsx
lines 167-195).  Required keys are always present; optional string keys
are present only when the form value is truthy; the numeric bounds use
`JsonField` because the server-side update type (SavedSearchUpdate,
part_006 lines 58-77) types them `number | null`, so a payload key can in
principle be absent, null, or a number. -/
structure SubmitData where
  name : String
  portals : List String
  operation_type : String
  currency : String
  auto_scrape : Bool
  is_active : Bool
  description : Option String
  property_type : Option String
  city : Option String
  province : Option String
  neighborhoods : Option (List String)
  min_price : JsonField ℚ
  max_price : JsonField ℚ
  min_area : JsonField ℚ
  max_area : JsonField ℚ
  min_bedrooms : JsonField ℤ
  max_bedrooms : JsonField ℤ
  min_bathrooms : JsonField ℤ
  deriving DecidableEq, Repr

/-- An optional string key is added to the payload only when the form value
is truthy, i.e. a nonempty string (`if (values.city) data.city = ...`). -/
def strOpt (s : String) : Option String :=
  if s = "" then none else some s

/-- A numeric key is added to the payload exactly when the form value is
not blank (`if (values.min_price !== "" && values.min_price !== undefined)
data.min_price = Number(values.min_price)`); a blank value leads to the
key being absent, never to an explicit null. -/
def numOpt {α : Type} : Option α → JsonField α
  | none => .absent
  | some q => .val q

/-- Splitting of the neighborhoods text field: split on commas, trim each
part, drop empty parts; an empty text yields no list at all. -/
def parsedNeighborhoods (text : String) : Option (List String) :=
  if text = "" then none
  else some (((text.splitOn ",").map String.trim).filter (fun n => n ≠ ""))

/-- The neighborhoods key is added only when the parsed list is nonempty
(`if (neighborhoods && neighborhoods.length > 0) ...`). -/
def neighborhoodsField (text : String) : Option (List String) :=
  match parsedNeighborhoods text with
  | some l => if 0 < l.length then some l else none
  | none => none

/-- `handleFormSubmit` of SavedSearchForm.tsx: builds the request payload
from the validated form values. -/
def handleFormSubmit (v : FormValues) : SubmitData :=
  { name := v.name
    portals := v.portals
    operation_type := v.operation_type
    currency := v.currency
    auto_scrape := v.auto_scrape
    is_active := v.is_active
    description := strOpt v.description
    property_type := strOpt v.property_type
    city := strOpt v.city
    province := strOpt v.province
    neighborhoods := neighborhoodsField v.neighborhoods_text
    min_price := numOpt v.min_price
    max_price := numOpt v.max_price
    min_area := numOpt v.min_area
    max_area := numOpt v.max_area
    min_bedrooms := numOpt v.min_bedrooms
    max_bedrooms := numOpt v.max_bedrooms
    min_bathrooms := numOpt v.min_bathrooms }

/-- The form submission pipeline `handleSubmit(handleFormSubmit)` (line
200): the zod resolver validates the values first and only a valid form
reaches `handleFormSubmit`; `none` means validation failed and no
create/update request is issued. -/
def submitForm (v : FormValues) : Option SubmitData :=
  if schemaValidates v then some (handleFormSubmit v) else none

/-- The form values with every field at its default (the `defaultValues`
of the form: empty strings, no portals, operation type venta, currency
USD, blank numeric bounds). -/
def blankForm : FormValues :=
  { name := ""
    description := ""
    portals := []
    operation_type := "venta"
    property_type := ""
    city := ""
    province := ""
    neighborhoods_text := ""
    currency := "USD"
    min_price := none
    max_price := none
    min_area := none
    max_area := none
    min_bedrooms := none
    max_bedrooms := none
    min_bathrooms := none
    auto_scrape := false
    is_active := true }

/-- A filled-in form whose price bounds are inverted: the minimum price is
strictly above the maximum price. -/
def minAboveMaxForm : FormValues :=
  { blankForm with
      name := "Depto centro"
      portals := ["argenprop"]
      min_price := some 500000
      max_price := some 100000 }

/-- The same form as a user would produce when editing a saved search that
had a minimum price and blanking that field out. -/
def blankedEditForm : FormValues :=
  { blankForm with
      name := "Depto centro"
      portals := ["zonaprop"]
      min_price := none
      max_area := some 120 }

/-- The form values with the min and max of each bound pair exchanged
(prices, areas, bedrooms; bathrooms only have a minimum). -/
def swapBounds (v : FormValues) : FormValues :=
  { v with
      min_price := v.max_price
      max_price := v.min_price
      min_area := v.max_area
      max_area := v.min_area
      min_bedrooms := v.max_bedrooms
      max_bedrooms := v.min_bedrooms }

/-- C1 counterexample: a create/edit submission whose minimum price 500000
exceeds its maximum price 100000 passes the boundary validation, and the
request is issued carrying both bounds — the claimed min ≤ max invariant
is not enforced at the boundary. -/
theorem savedSearchForm_accepts_min_above_max :
    schemaValidates minAboveMaxForm = true ∧
    minAboveMaxForm.min_price = some 500000 ∧
    minAboveMaxForm.max_price = some 100000 ∧
    submitForm minAboveMaxForm = some (handleFormSubmit minAboveMaxForm) ∧
    (handleFormSubmit minAboveMaxForm).min_price = JsonField.val 500000 ∧
    (handleFormSubmit minAboveMaxForm).max_price = JsonField.val 100000 ∧
    ¬ ((500000 : ℚ) ≤ 100000) := by
  refine ⟨by decide, rfl, rfl, ?_, rfl, rfl, by norm_num⟩
  simp [submitForm, show schemaValidates minAboveMaxForm = true by decide]

/-- C1 amended: the boundary validation never compares a min bound with
the corresponding max bound — it is invariant under exchanging the min
and max values of every bound pair, so a submission with min > max is
accepted whenever the same submission with the bounds in order is. -/
theorem schemaValidates_symmetric_in_bounds (v : FormValues) :
    schemaValidates (swapBounds v) = schemaValidates v := by
  have key : ∀ a b c d p1 p2 p3 p4 q1 q2 q3 : Bool,
      (a && b && c && d && p2 && p1 && p4 && p3 && q2 && q1 && q3) =
      (a && b && c && d && p1 && p2 && p3 && p4 && q1 && q2 && q3) := by decide
  simp only [schemaValidates, swapBounds]
  exact key _ _ _ _ _ _ _ _ _ _ _

/-- C2 counterexample: editing a saved search and blanking out the minimum
price produces a partial in which the min_price key is absent — the form
omits the field instead of sending an explicit null, so the blanked bound
is not explicitly cleared. -/
theorem savedSearchEdit_blank_min_price_omitted :
    schemaValidates blankedEditForm = true ∧
    blankedEditForm.min_price = none ∧
    (handleFormSubmit blankedEditForm).min_price = JsonField.absent ∧
    (JsonField.absent : JsonField ℚ) ≠ JsonField.null := by
  refine ⟨by decide, rfl, rfl, by decide⟩

/-- The payload field built from a blank-or-number form value is never an
explicit null. -/
theorem numOpt_isNull {α : Type} (o : Option α) : (numOpt o).isNull = false := by
  cases o <;> rfl

/-- C2 amended: the update payload type admits null for the optional
numeric bounds, but the form never uses it — every payload it builds has
each numeric bound either absent or set to a number (`isNull` is false),
and a blanked bound always results in the key being absent. -/
theorem handleFormSubmit_never_sends_null (v : FormValues) :
    (handleFormSubmit v).min_price.isNull = false ∧
    (handleFormSubmit v).max_price.isNull = false ∧
    (handleFormSubmit v).min_area.isNull = false ∧
    (handleFormSubmit v).max_area.isNull = false ∧
    (handleFormSubmit v).min_bedrooms.isNull = false ∧
    (handleFormSubmit v).max_bedrooms.isNull = false ∧
    (handleFormSubmit v).min_bathrooms.isNull = false ∧
    (handleFormSubmit { v with min_price := none }).min_price = JsonField.absent ∧
    (handleFormSubmit { v with max_price := none }).max_price = JsonField.absent ∧
    (handleFormSubmit { v with min_area := none }).min_area = JsonField.absent ∧
    (handleFormSubmit { v with max_area := none }).max_area = JsonField.absent ∧
    (handleFormSubmit { v with min_bedrooms := none }).min_bedrooms = JsonField.absent ∧
    (handleFormSubmit { v with max_bedrooms := none }).max_bedrooms = JsonField.absent ∧
    (handleFormSubmit { v with min_bathrooms := none }).min_bathrooms = JsonField.absent := by
  exact ⟨numOpt_isNull _, numOpt_isNull _, numOpt_isNull _, numOpt_isNull _,
    numOpt_isNull _, numOpt_isNull _, numOpt_isNull _,
    rfl, rfl, rfl, rfl, rfl, rfl, rfl⟩

/-- C3: a form submission with zero portals selected fails the boundary
validation, so the create/update request is never issued. -/
theorem submitForm_rejects_empty_portals (v : FormValues) (h : v.portals = []) :
    submitForm v = none := by
  simp [submitForm, schemaValidates, h]

/-- C3 witness: the default form has no portal selected and is rejected. -/
theorem submitForm_rejects_empty_portals_witness :
    blankForm.portals = [] ∧ submitForm blankForm = none :=
  ⟨rfl, submitForm_rejects_empty_portals blankForm rfl⟩

/-- A query-parameter value as serialized by the axios client: a string, a
natural number, a general number, or a boolean. -/
inductive ParamValue where
  | str : String → ParamValue
  | nat : ℕ → ParamValue
  | num : ℚ → ParamValue
  | flag : Bool → ParamValue
  deriving DecidableEq, Repr

/-- An HTTP request issued through the api client: method, url, and the
query parameters in insertion order. -/
structure ApiRequest where
  method : String
  url : String
  params : List (String × ParamValue)
  deriving DecidableEq, Repr

/-- The execute response type (SavedSearchExecuteResponse, part_006 lines
86-96); errors is a list of records, modelled as key/value lists. -/
structure SavedSearchExecuteResponse where
  success : Bool
  search_id : String
  search_name : String
  total_found : ℕ
  new_properties : ℕ
  duplicates : ℕ
  scraped : ℕ
  pending : ℕ
  errors : List (List (String × String))
  deriving DecidableEq, Repr

/-- `savedSearchesApi.execute` (part_006 lines 180-187): POST to
/saved-searches/id/execute, with the max_properties query parameter set
exactly when the caller passed one (`max_properties !== undefined`). -/
def executeRequest (id : String) (max_properties : Option ℕ) : ApiRequest :=
  { method := "POST"
    url := "/saved-searches/" ++ id ++ "/execute"
    params :=
      match max_properties with
      | some m => [("max_properties", ParamValue.nat m)]
      | none => [] }

/-- The summary fields of an execute response, as read by the result alert
of SavedSearchList.tsx: total_found, new_properties, duplicates, scraped,
pending, and the errors list. -/
def executeSummary (r : SavedSearchExecuteResponse) :
    ℕ × ℕ × ℕ × ℕ × ℕ × List (List (String × String)) :=
  (r.total_found, r.new_properties, r.duplicates, r.scraped, r.pending, r.errors)

/-- C4: executeSavedSearch carries the max_properties query parameter
exactly when the caller provided one, and every execute response carries
the six summary fields total_found, new_properties, duplicates, scraped,
pending and errors. -/
theorem executeSavedSearch_params_and_summary (id : String) :
    (∀ m : ℕ, (executeRequest id (some m)).params = [("max_properties", ParamValue.nat m)]) ∧
    (executeRequest id none).params = [] ∧
    (executeRequest id none).method = "POST" ∧
    (executeRequest id none).url = "/saved-searches/" ++ id ++ "/execute" ∧
    (∀ r : SavedSearchExecuteResponse,
      executeSummary r =
        (r.total_found, r.new_properties, r.duplicates, r.scraped, r.pending, r.errors)) :=
  ⟨fun _ => rfl, rfl, rfl, rfl, fun _ => rfl⟩

/-- The rescrape response type (RescrapePropertyResponse, part_004 lines
160-169). -/
structure RescrapePropertyResponse where
  success : Bool
  old_price : ℚ
  new_price : ℚ
  price_changed : Bool
  old_status : String
  new_status : String
  status_changed : Bool
  error : Option String
  deriving DecidableEq, Repr

/-- The dialog state left behind by `handleRescrape` of
UpdatePriceDialog.tsx: the error alert text (empty when no error is
shown), the success alert text (empty when none is shown), and whether
onSuccess was invoked. -/
structure RescrapeDialogState where
  errorMsg : String
  rescrapeResult : String
  onSuccessCalled : Bool
  deriving DecidableEq, Repr

/-- `handleRescrape` of UpdatePriceDialog.tsx (lines 58-80) on a resolved
response: a price change shows the updated-price success alert; otherwise
a response carrying an error shows the error alert and returns before
onSuccess; otherwise the unchanged-price success alert is shown.  The
locale price formatting is abstracted by `toString`. -/
def handleRescrape (property_currency : String) (r : RescrapePropertyResponse) :
    RescrapeDialogState :=
  if r.price_changed then
    { errorMsg := ""
      rescrapeResult := "Precio actualizado: " ++ toString r.old_price ++ " → " ++
        toString r.new_price ++ " " ++ property_currency
      onSuccessCalled := true }
  else
    match r.error with
    | some e => { errorMsg := e, rescrapeResult := "", onSuccessCalled := false }
    | none =>
      { errorMsg := ""
        rescrapeResult := "Sin cambios: el precio sigue siendo el mismo en el portal."
        onSuccessCalled := true }

/-- A rescrape response reporting no price change and no error. -/
def noopRescrapeResponse : RescrapePropertyResponse :=
  { success := true
    old_price := 250000
    new_price := 250000
    price_changed := false
    old_status := "active"
    new_status := "active"
    status_changed := false
    error := none }

/-- C5: a rescrape response with price_changed false and no error is
handled as a legitimate no-op — the unchanged-price success alert is
shown, no error state is set and onSuccess runs — while a response in the
same situation carrying an error sets the error state instead and does
not run onSuccess. -/
theorem handleRescrape_noop_vs_error (c : String) (r : RescrapePropertyResponse)
    (hpc : r.price_changed = false) :
    (r.error = none →
      handleRescrape c r =
        { errorMsg := ""
          rescrapeResult := "Sin cambios: el precio sigue siendo el mismo en el portal."
          onSuccessCalled := true }) ∧
    (∀ e, r.error = some e →
      handleRescrape c r = { errorMsg := e, rescrapeResult := "", onSuccessCalled := false }) := by
  constructor
  · intro he
    simp [handleRescrape, hpc, he]
  · intro e he
    simp [handleRescrape, hpc, he]

/-- C5 witness: the concrete unchanged-price response is reported as a
no-op success with no error state. -/
theorem handleRescrape_noop_vs_error_witness :
    noopRescrapeResponse.price_changed = false ∧
    noopRescrapeResponse.error = none ∧
    handleRescrape "USD" noopRescrapeResponse =
      { errorMsg := ""
        rescrapeResult := "Sin cambios: el precio sigue siendo el mismo en el portal."
        onSuccessCalled := true } :=
  ⟨rfl, rfl, (handleRescrape_noop_vs_error "USD" noopRescrapeResponse rfl).1 rfl⟩

/-- The clear-errors response type: a success flag and the number of
deleted rows. -/
structure ClearErrorsResponse where
  success : Bool
  cleared : ℕ
  deriving DecidableEq, Repr

/-- `savedSearchesApi.clearErrors` (part_006 lines 241-248): POST to
/pending-properties/clear-errors with `params: search_id ? { search_id } :
{}` — the javascript truthiness test drops the parameter both when no
search_id was passed and when the passed string is empty. -/
def clearErrorsRequest (search_id : Option String) : ApiRequest :=
  { method := "POST"
    url := "/pending-properties/clear-errors"
    params :=
      match search_id with
      | some s => if s = "" then [] else [("search_id", ParamValue.str s)]
      | none => [] }

/-- C6 counterexample: calling clearErrors with the provided search_id ""
issues the request without the search_id parameter, so the parameter is
not carried if and only if a search_id is provided — the truthiness test
treats the provided empty string like an absent argument. -/
theorem clearErrors_drops_empty_search_id :
    (clearErrorsRequest (some "")).params = [] ∧
    (some "" : Option String) ≠ none := by
  exact ⟨rfl, by simp⟩

/-- C6 amended: clearErrors posts to /pending-properties/clear-errors and
carries the search_id query parameter exactly when a nonempty search_id
is provided (an empty string is treated like an absent one), and the
response carries a numeric cleared count. -/
theorem clearErrorsRequest_params (s : String) (h : s ≠ "") :
    (clearErrorsRequest (some s)).params = [("search_id", ParamValue.str s)] ∧
    (clearErrorsRequest none).params = [] ∧
    (clearErrorsRequest (some s)).method = "POST" ∧
    (clearErrorsRequest (some s)).url = "/pending-properties/clear-errors" ∧
    (∀ (b : Bool) (n : ℕ), (ClearErrorsResponse.mk b n).cleared = n) := by
  refine ⟨?_, rfl, rfl, rfl, fun _ _ => rfl⟩
  simp [clearErrorsRequest, h]

/-- C6 amended witness: a concrete nonempty search id is carried as the
query parameter. -/
theorem clearErrorsRequest_params_witness :
    ("search-7" : String) ≠ "" ∧
    (clearErrorsRequest (some "search-7")).params =
      [("search_id", ParamValue.str "search-7")] :=
  ⟨by decide, (clearErrorsRequest_params "search-7" (by decide)).1⟩

/-- One price-history record (PriceHistoryEntry, part_004 lines 68-75);
previous_price and change_percentage are nullable. -/
structure PriceHistoryEntry where
  price : ℚ
  previous_price : Option ℚ
  currency : String
  change_percentage : Option ℚ
  deriving DecidableEq, Repr

/-- Modelled from the spec: the backend PriceTracker, which computes the
derived change_percentage, is not among the provided sources (only the
frontend PriceHistoryEntry type is).  Per §3, change_percentage is
(price − previous_price) / previous_price × 100 when previous_price is
present and nonzero, else null. -/
def computeChangePercentage (price : ℚ) (previous : Option ℚ) : Option ℚ :=
  match previous with
  | none => none
  | some p => if p = 0 then none else some ((price - p) / p * 100)

/-- Modelled from the spec: PriceTracker.observe (§4.5), restricted to the
price part — the backend implementation is not among the provided
sources.  Given the stored price, the history and a freshly observed
price, it returns the price_changed flag, the updated stored price and
the updated history: when the new price differs, an entry with
previous_price equal to the old price and the computed change_percentage
is appended; otherwise nothing changes. -/
def observe (current_price : ℚ) (history : List PriceHistoryEntry)
    (new_price : ℚ) (currency : String) :
    Bool × ℚ × List PriceHistoryEntry :=
  if new_price = current_price then
    (false, current_price, history)
  else
    (true, new_price,
      history ++ [{ price := new_price
                    previous_price := some current_price
                    currency := currency
                    change_percentage := computeChangePercentage new_price (some current_price) }])

/-- C7: every entry satisfies the change_percentage formula — the
percentage is (price − previous) / previous × 100 when a nonzero previous
price is present and null otherwise — and observing 200000 on a property
whose stored price is 250000 appends an entry with previous_price 250000
and change_percentage −20. -/
theorem change_percentage_formula (price prev : ℚ) (c : String) (h : prev ≠ 0) :
    computeChangePercentage price (some prev) = some ((price - prev) / prev * 100) ∧
    computeChangePercentage price none = none ∧
    computeChangePercentage price (some 0) = none ∧
    observe 250000 [] 200000 c =
      (true, 200000,
        [{ price := 200000
           previous_price := some 250000
           currency := c
           change_percentage := some (-20) }]) := by
  refine ⟨by simp [computeChangePercentage, h], rfl, by simp [computeChangePercentage], ?_⟩
  have hpct : computeChangePercentage 200000 (some 250000) = some (-20) := by
    simp only [computeChangePercentage]
    norm_num
  simp only [observe, hpct]
  norm_num

/-- C7 witness: the formula at the concrete observation of the spec
example — price 200000 against previous price 250000 gives −20 percent. -/
theorem change_percentage_formula_witness :
    ((250000 : ℚ) ≠ 0) ∧
    computeChangePercentage 200000 (some 250000) =
      some (((200000 : ℚ) - 250000) / 250000 * 100) ∧
    observe 250000 [] 200000 "USD" =
      (true, 200000,
        [{ price := 200000
           previous_price := some 250000
           currency := "USD"
           change_percentage := some (-20) }]) :=
  ⟨by norm_num,
    (change_percentage_formula 200000 250000 "USD" (by norm_num)).1,
    (change_percentage_formula 200000 250000 "USD" (by norm_num)).2.2.2⟩

/-- The status of a pending row (§3): PENDING, SCRAPED, SKIPPED, ERROR or
DUPLICATE. -/
inductive PendingStatus where
  | pending
  | scraped
  | skipped
  | error
  | duplicate
  deriving DecidableEq, Repr, Fintype

/-- An operator action on one pending row through the state machine:
a scrape whose fetch succeeds, a scrape whose fetch fails, or a skip. -/
inductive PendingAction where
  | scrapeOk
  | scrapeFail
  | skipItem
  deriving DecidableEq, Repr, Fintype

/-- The error raised on an illegal state transition (§7). -/
inductive PendingQueueError where
  | conflictError
  deriving DecidableEq, Repr, Fintype

/-- Modelled from the spec: the PendingQueue state machine of §4.3 — the
backend implementation is not among the provided sources.  Restricted to
the status component: scrape is allowed from PENDING and ERROR (reaching
SCRAPED on success and ERROR on a failed fetch), skip is allowed from
PENDING and ERROR, and every other transition — in particular any
transition out of SCRAPED or SKIPPED — is rejected with ConflictError. -/
def step : PendingStatus → PendingAction → Except PendingQueueError PendingStatus
  | .pending, .scrapeOk => .ok .scraped
  | .pending, .scrapeFail => .ok .error
  | .error, .scrapeOk => .ok .scraped
  | .error, .scrapeFail => .ok .error
  | .pending, .skipItem => .ok .skipped
  | .error, .skipItem => .ok .skipped
  | _, _ => .error .conflictError

/-- A transition attempt at commit time: on acceptance the row takes the
new status, on rejection (ConflictError) the row keeps its status; the
boolean reports acceptance. -/
def applyAction (s : PendingStatus) (a : PendingAction) : PendingStatus × Bool :=
  match step s a with
  | .ok t => (t, true)
  | .error _ => (s, false)

/-- C8: skipping a row that is already SCRAPED is rejected with
ConflictError and the row stays SCRAPED; more generally every action on a
SCRAPED or SKIPPED row is rejected with ConflictError and leaves the
status unchanged, so a resolved row can never be re-scraped or
re-skipped. -/
theorem pendingQueue_resolved_rows_frozen :
    step PendingStatus.scraped PendingAction.skipItem =
      Except.error PendingQueueError.conflictError ∧
    applyAction PendingStatus.scraped PendingAction.skipItem =
      (PendingStatus.scraped, false) ∧
    (∀ a : PendingAction,
      step PendingStatus.scraped a = Except.error PendingQueueError.conflictError ∧
      step PendingStatus.skipped a = Except.error PendingQueueError.conflictError ∧
      applyAction PendingStatus.scraped a = (PendingStatus.scraped, false) ∧
      applyAction PendingStatus.skipped a = (PendingStatus.skipped, false)) := by
  refine ⟨rfl, rfl, fun a => ?_⟩
  cases a <;> exact ⟨rfl, rfl, rfl, rfl⟩

/-- The optional property-list filters (PropertyFilters, part_004 lines
114-129). -/
structure PropertyFilters where
  source : Option String := none
  property_type : Option String := none
  operation_type : Option String := none
  status : Option String := none
  currency : Option String := none
  price_min : Option ℚ := none
  price_max : Option ℚ := none
  area_min : Option ℚ := none
  area_max : Option ℚ := none
  bedrooms_min : Option ℚ := none
  bathrooms_min : Option ℚ := none
  neighborhood : Option String := none
  city : Option String := none
  has_location : Option Bool := none
  deriving DecidableEq, Repr

/-- A string filter joins the query parameters only when truthy, i.e.
present and nonempty (`if (filters.source) params.source = ...`). -/
def strFilterParam (k : String) : Option String → List (String × ParamValue)
  | none => []
  | some s => if s = "" then [] else [(k, ParamValue.str s)]

/-- A numeric filter joins the query parameters when it is not null or
undefined (`if (filters.price_min != null) ...`). -/
def numFilterParam (k : String) : Option ℚ → List (String × ParamValue)
  | none => []
  | some q => [(k, ParamValue.num q)]

/-- The query parameters of `propertiesApi.listProperties` (part_004
lines 201-222): always skip and limit, then each provided filter in code
order (has_location is never forwarded). -/
def listPropertiesParams (skip limit : ℕ) (f : PropertyFilters) :
    List (String × ParamValue) :=
  [("skip", ParamValue.nat skip), ("limit", ParamValue.nat limit)]
    ++ strFilterParam "source" f.source
    ++ strFilterParam "property_type" f.property_type
    ++ strFilterParam "operation_type" f.operation_type
    ++ strFilterParam "status" f.status
    ++ strFilterParam "currency" f.currency
    ++ numFilterParam "price_min" f.price_min
    ++ numFilterParam "price_max" f.price_max
    ++ numFilterParam "area_min" f.area_min
    ++ numFilterParam "area_max" f.area_max
    ++ numFilterParam "bedrooms_min" f.bedrooms_min
    ++ numFilterParam "bathrooms_min" f.bathrooms_min
    ++ strFilterParam "neighborhood" f.neighborhood
    ++ strFilterParam "city" f.city

/-- The all-absent filter record, the default value of the filters
argument of listProperties. -/
def emptyFilters : PropertyFilters := {}

/-- The request parameters issued by the useProperties hook
(useProperties.ts lines 12-19): its queryFn calls
`propertiesApi.listProperties(skip, limit)`, leaving the filters argument
at its empty default. -/
def usePropertiesRequestParams (skip limit : ℕ) : List (String × ParamValue) :=
  listPropertiesParams skip limit emptyFilters

/-- The react-query key of the useProperties hook: properties, skip,
limit — no filter component. -/
def usePropertiesQueryKey (skip limit : ℕ) : String × ℕ × ℕ :=
  ("properties", skip, limit)

/-- The request parameters issued for the property-list page
(PropertyList.tsx lines 49-59): the page calls
`useProperties((page - 1) * pageSize, pageSize, activeFilters)`, but the
hook accepts only skip and limit, so the third argument is dropped. -/
def propertyListRequestParams (page pageSize : ℕ)
    (_activeFilters : PropertyFilters) : List (String × ParamValue) :=
  usePropertiesRequestParams ((page - 1) * pageSize) pageSize

/-- C9: the property-list filters have no effect on the data fetched —
any two filter selections with the same page and page size issue
identical requests, whose parameters are exactly skip and limit, and the
query key does not depend on the filters either. -/
theorem propertyList_filters_no_effect (page pageSize : ℕ)
    (f g : PropertyFilters) :
    propertyListRequestParams page pageSize f =
      propertyListRequestParams page pageSize g ∧
    propertyListRequestParams page pageSize f =
      [("skip", ParamValue.nat ((page - 1) * pageSize)),
       ("limit", ParamValue.nat pageSize)] ∧
    usePropertiesQueryKey ((page - 1) * pageSize) pageSize =
      ("properties", (page - 1) * pageSize, pageSize) :=
  ⟨rfl, rfl, rfl⟩

/-- The authenticated user record of the auth store (authStore.ts). -/
structure AuthUser where
  id : String
  email : String
  full_name : Option String
  is_active : Bool
  is_superuser : Bool
  deriving DecidableEq, Repr

/-- The zustand auth store state (authStore.ts lines 15-21): user and
token are nullable, plus the derived isAuthenticated flag. -/
structure AuthState where
  user : Option AuthUser
  token : Option String
  isAuthenticated : Bool
  deriving DecidableEq, Repr

/-- The initial store state (authStore.ts lines 26-28). -/
def initialAuthState : AuthState :=
  { user := none, token := none, isAuthenticated := false }

/-- The setAuth action (lines 29-32): stores the user and the token and
sets isAuthenticated to true; the localStorage write is a side effect
outside the store state. -/
def setAuth (u : AuthUser) (t : String) (_s : AuthState) : AuthState :=
  { user := some u, token := some t, isAuthenticated := true }

/-- The clearAuth action (lines 33-36): nulls user and token and sets
isAuthenticated to false. -/
def clearAuth (_s : AuthState) : AuthState :=
  { user := none, token := none, isAuthenticated := false }

/-- The store invariant: isAuthenticated holds exactly when a token is
stored. -/
def authInvariant (s : AuthState) : Bool :=
  s.isAuthenticated == s.token.isSome

/-- C10: the invariant isAuthenticated = (token ≠ null) holds in the
initial state and is preserved by both actions: setAuth stores the
non-null token and sets isAuthenticated to true, and clearAuth nulls user
and token and sets isAuthenticated to false. -/
theorem authStore_invariant :
    authInvariant initialAuthState = true ∧
    (∀ (u : AuthUser) (t : String) (s : AuthState),
      authInvariant (setAuth u t s) = true ∧
      (setAuth u t s).token = some t ∧
      (setAuth u t s).user = some u ∧
      (setAuth u t s).isAuthenticated = true) ∧
    (∀ s : AuthState,
      authInvariant (clearAuth s) = true ∧
      (clearAuth s).user = none ∧
      (clearAuth s).token = none ∧
      (clearAuth s).isAuthenticated = false) :=
  ⟨rfl, fun _ _ _ => ⟨rfl, rfl, rfl, rfl⟩, fun _ => ⟨rfl, rfl, rfl, rfl⟩⟩

end RealEstate
